import Mathlib

/-!
Verification of the donation transfer core of the Fastamoni wallet service.

Shallow embedding of:
  sourcefiles donationService (createDonation, getDonationsByDateRange,
  getSingleDonation, getDonationCount) and
  donationController (createDonationEndpoint)
over an explicit relational store.  Monetary amounts are modelled as exact
rationals (the store column is an exact-precision decimal), ids as naturals,
and the Prisma interactive transaction as an all-or-nothing function on the
store.  Fallible operations return Except values mirroring the thrown
errors; Prisma store errors (P2002 unique violation, P2025 record not
found, negative-skip validation) are a separate constructor so that the
controller maps them to an opaque 500.
-/

namespace Fastamoni

/-- A row of the User table (the fields selected by the service:
id, email, name). -/
structure User where
  id : Nat
  email : String
  name : String
deriving Repr, DecidableEq

/-- A row of the Wallet table (unique index on userId); balance is an
exact decimal, modelled as a rational. -/
structure Wallet where
  userId : Nat
  balance : Rat
deriving Repr, DecidableEq

/-- A row of the Donation table. -/
structure Donation where
  id : Nat
  senderId : Nat
  receiverId : Nat
  amount : Rat
  createdAt : Int
deriving Repr, DecidableEq

/-- A row of the Transaction table (unique indexes on idempotencyKey and
on donationId). -/
structure Transaction where
  id : Nat
  donationId : Nat
  amount : Rat
  type : String
  status : String
  idempotencyKey : String
deriving Repr, DecidableEq

/-- A row of the IdempotencyKey table (unique indexes on key and on
transactionId). -/
structure IdemKey where
  key : String
  transactionId : Nat
deriving Repr, DecidableEq

/-- A row of the TransactionPin table (unique index on userId). -/
structure TransactionPin where
  userId : Nat
  pinHash : String
deriving Repr, DecidableEq

/-- The relational store.  The two counters model the Postgres SERIAL
sequences that assign fresh primary keys on insert; `now` is the clock
stamped into createdAt. -/
structure DB where
  users : List User
  wallets : List Wallet
  donations : List Donation
  transactions : List Transaction
  idemKeys : List IdemKey
  pins : List TransactionPin
  nextDonationId : Nat
  nextTxnId : Nat
  now : Int
deriving Repr, DecidableEq

/-- prisma.user.findUnique by id. -/
def findUser (db : DB) (id : Nat) : Option User :=
  db.users.find? (fun u => u.id == id)

/-- prisma.wallet.findUnique by userId (unique index). -/
def findWallet (db : DB) (uid : Nat) : Option Wallet :=
  db.wallets.find? (fun w => w.userId == uid)

/-- prisma.donation.findUnique by id. -/
def findDonation (db : DB) (id : Nat) : Option Donation :=
  db.donations.find? (fun d => d.id == id)

/-- prisma.transaction.findUnique by id. -/
def findTransaction (db : DB) (id : Nat) : Option Transaction :=
  db.transactions.find? (fun t => t.id == id)

/-- prisma.idempotencyKey.findUnique by key (unique index). -/
def findIdemKey (db : DB) (k : String) : Option IdemKey :=
  db.idemKeys.find? (fun r => r.key == k)

/-- prisma.transactionPin.findUnique by userId (unique index). -/
def findPin (db : DB) (uid : Nat) : Option TransactionPin :=
  db.pins.find? (fun p => p.userId == uid)

/-- prisma.donation.count with a senderId filter (getDonationCount and the
post-commit notification check both issue this query). -/
def getDonationCount (db : DB) (userId : Nat) : Nat :=
  (db.donations.filter (fun d => d.senderId == userId)).length

/-- Store-level errors surfaced by Prisma: P2002 unique-constraint
violation, P2025 update/delete on a missing row, and the client-side
validation error raised for a negative skip. -/
inductive StoreError
  | uniqueViolation
  | recordNotFound
  | invalidSkip
deriving Repr, DecidableEq

/-- An error propagating out of the service layer: either a message thrown
with new Error(msg), or a store error rethrown as-is. -/
inductive ServiceError
  | msg (s : String)
  | store (e : StoreError)
deriving Repr, DecidableEq

/-- The message field the controller matches on. Store errors carry Prisma
diagnostics that never equal one of the three handled messages. -/
def serviceErrorMessage : ServiceError → String
  | .msg s => s
  | .store .uniqueViolation => "Unique constraint failed (P2002)"
  | .store .recordNotFound => "Record not found (P2025)"
  | .store .invalidSkip => "Invalid value for skip"

/-- wallet.update with a balance increment by delta (a decrement is an
increment by a negative delta); applies to the rows matching the unique
userId index. -/
def updateWalletBalance (ws : List Wallet) (uid : Nat) (delta : Rat) :
    List Wallet :=
  ws.map (fun w => if w.userId == uid then { w with balance := w.balance + delta } else w)

/-- Does some wallet row exist for this userId (an update on a missing row
raises P2025). -/
def hasWallet (ws : List Wallet) (uid : Nat) : Bool :=
  ws.any (fun w => w.userId == uid)

/-- The Donation row the atomic unit inserts: the amount between the two
parties, stamped with the clock and the next donation id. -/
def newDonation (db : DB) (u r : Nat) (a : Rat) : Donation :=
  { id := db.nextDonationId, senderId := u, receiverId := r, amount := a,
    createdAt := db.now }

/-- The Transaction row the atomic unit inserts: type DONATION, status
COMPLETED, carrying the idempotency key and the new donation id. -/
def newTxn (db : DB) (a : Rat) (k : String) : Transaction :=
  { id := db.nextTxnId, donationId := db.nextDonationId, amount := a,
    type := "DONATION", status := "COMPLETED", idempotencyKey := k }

/-- The store after the atomic unit commits: sender debited, receiver
credited, the three rows appended, both id sequences advanced. -/
def commitDB (db : DB) (u r : Nat) (a : Rat) (k : String) : DB :=
  { db with
      wallets := updateWalletBalance (updateWalletBalance db.wallets u (-a)) r a,
      donations := db.donations ++ [newDonation db u r a],
      transactions := db.transactions ++ [newTxn db a k],
      idemKeys := db.idemKeys ++ [{ key := k, transactionId := db.nextTxnId }],
      nextDonationId := db.nextDonationId + 1,
      nextTxnId := db.nextTxnId + 1 }

/-- The interactive prisma transaction inside createDonation: debit the
sender wallet, credit the receiver wallet, insert the Donation, the
Transaction and the IdempotencyKey rows.  The whole unit commits or
rolls back as one; unique-index conflicts on Transaction.idempotencyKey,
Transaction.donationId, IdemKey.key and IdemKey.transactionId raise
P2002, an update on a missing wallet row raises P2025. -/
def runAtomicUnit (db : DB) (userId receiverId : Nat) (amount : Rat)
    (idempotencyKey : String) : Except StoreError (DB × Transaction) :=
  if hasWallet db.wallets userId then
    if hasWallet (updateWalletBalance db.wallets userId (-amount)) receiverId then
      if db.transactions.any
          (fun t => t.idempotencyKey == idempotencyKey
            || t.donationId == db.nextDonationId) then
        .error .uniqueViolation
      else if db.idemKeys.any
          (fun r => r.key == idempotencyKey || r.transactionId == db.nextTxnId) then
        .error .uniqueViolation
      else
        .ok (commitDB db userId receiverId amount idempotencyKey,
             newTxn db amount idempotencyKey)
    else .error .recordNotFound
  else .error .recordNotFound

/-- A Transaction row as returned to the caller; the idempotency replay
path returns it with its linked Donation included, while the fresh commit
path returns the bare row (donation := none). -/
structure TxnResult where
  txn : Transaction
  donation : Option Donation
deriving Repr, DecidableEq

/-- The replay value: the transaction recorded for the key, fetched with
include donation (null when the transaction row is absent, mirroring the
findUnique null). -/
def replayResult (db : DB) (transactionId : Nat) : Option TxnResult :=
  (findTransaction db transactionId).map
    (fun t => { txn := t, donation := findDonation db t.donationId })

deriving instance DecidableEq for Except

/-- Outcome of one call to createDonation: the resulting store, the
returned value or thrown error, and the thank-you notifications the
post-commit background task dispatches (each is the sender email and
name passed to sendThankYouEmail). -/
structure DonationOutcome where
  db : DB
  result : Except ServiceError (Option TxnResult)
  notifications : List (String × String)
deriving Repr, DecidableEq

/-- createDonation from the donation service, with an explicit
interference point: `interfere` is the store mutation committed by any
concurrently racing execution between the initial idempotency lookup of
this call and its atomic unit.  A sequential (isolated) execution is
interfere = id.  Paths: (1) idempotency hit returns the recorded
transaction with its donation; (2) validation failures throw messages and
leave the store as found; (3) a fresh request runs the atomic unit; on
P2002 the now-existing idempotency record is re-read and its transaction
returned as a normal success; the post-commit background task dispatches
one thank-you notification when the sender donation count is at least 2. -/
def createDonationRaced (db0 : DB) (userId receiverId : Nat) (amount : Rat)
    (idempotencyKey : String) (interfere : DB → DB) : DonationOutcome :=
  match findIdemKey db0 idempotencyKey with
  | some existing =>
      { db := db0, result := .ok (replayResult db0 existing.transactionId),
        notifications := [] }
  | none =>
    let db := interfere db0
    if amount ≤ 0 then
      { db := db, result := .error (.msg "Donation amount must be greater than zero"),
        notifications := [] }
    else if userId = receiverId then
      { db := db, result := .error (.msg "Cannot donate to yourself"),
        notifications := [] }
    else
      match findUser db userId, findUser db receiverId with
      | some sender, some _ =>
        match findWallet db userId with
        | some senderWallet =>
          if senderWallet.balance < amount then
            { db := db, result := .error (.msg "Insufficient funds in wallet"),
              notifications := [] }
          else
            match runAtomicUnit db userId receiverId amount idempotencyKey with
            | .ok (db2, txn) =>
                { db := db2, result := .ok (some { txn := txn, donation := none }),
                  notifications :=
                    if 2 ≤ getDonationCount db2 userId then
                      [(sender.email, sender.name)]
                    else [] }
            | .error .uniqueViolation =>
                match findIdemKey db idempotencyKey with
                | some existing =>
                    if existing.transactionId ≠ 0 then
                      { db := db, result := .ok (replayResult db existing.transactionId),
                        notifications := [] }
                    else
                      { db := db, result := .error (.store .uniqueViolation),
                        notifications := [] }
                | none =>
                    { db := db, result := .error (.store .uniqueViolation),
                      notifications := [] }
            | .error e =>
                { db := db, result := .error (.store e), notifications := [] }
        | none =>
            { db := db, result := .error (.msg "Sender wallet not found"),
              notifications := [] }
      | _, _ =>
          { db := db, result := .error (.msg "sender or receiver does not exist"),
            notifications := [] }

/-- createDonation as executed without interference from concurrent
requests. -/
def createDonation (db : DB) (userId receiverId : Nat) (amount : Rat)
    (idempotencyKey : String) : DonationOutcome :=
  createDonationRaced db userId receiverId amount idempotencyKey id

/-- The public identity fields selected for included parties:
id, name, email. -/
structure PublicUser where
  id : Nat
  name : String
  email : String
deriving Repr, DecidableEq

/-- Project a User row onto its selected public fields. -/
def publicUser (u : User) : PublicUser :=
  { id := u.id, name := u.name, email := u.email }

/-- A Donation row with its included receiver identity, as returned by the
range query. -/
structure DonationWithReceiver where
  donation : Donation
  receiver : Option PublicUser
deriving Repr, DecidableEq

/-- The pagination block of the range query response. -/
structure Pagination where
  page : Int
  limit : Int
  total : Nat
  pages : Int
deriving Repr, DecidableEq

/-- The range query response: the fetched page plus pagination metadata. -/
structure RangeResult where
  data : List DonationWithReceiver
  pagination : Pagination
deriving Repr, DecidableEq

/-- Insert a donation below every already-placed row whose createdAt is at
least as new, giving the stable descending order Prisma uses for
orderBy createdAt desc. -/
def insertDescByCreatedAt (d : Donation) : List Donation → List Donation
  | [] => [d]
  | x :: xs =>
      if d.createdAt ≤ x.createdAt then x :: insertDescByCreatedAt d xs
      else d :: x :: xs

/-- Stable sort of donations, newest first. -/
def sortDescByCreatedAt (ds : List Donation) : List Donation :=
  ds.foldl (fun acc d => insertDescByCreatedAt d acc) []

/-- The last n elements of a list (Prisma take with a negative argument
fetches from the end of the result set). -/
def takeLastN (xs : List Donation) (n : Nat) : List Donation :=
  (xs.reverse.take n).reverse

/-- The page slice a Prisma findMany with these skip and take arguments
returns once skip has been validated as non-negative. -/
def pageSlice (sorted : List Donation) (skip limit : Int) : List Donation :=
  if limit < 0 then takeLastN (sorted.drop skip.toNat) limit.natAbs
  else (sorted.drop skip.toNat).take limit.toNat

/-- Math.ceil(total / limit) for a positive limit; a non-positive limit
(Infinity or a negative ceiling in the source runtime) is outside every
claim and mapped to 0. -/
def ceilPages (total : Nat) (limit : Int) : Int :=
  if 0 < limit then ((total : Int) + limit - 1) / limit else 0

/-- getDonationsByDateRange from the donation service.  startDate and
endDate arrive as already-parsed instants, none standing for an invalid
date (NaN); page and limit are the parseInt results forwarded by the
controller with defaults 1 and 10.  skip is computed as
(page - 1) * limit with no clamping of page or limit; the store rejects a
negative skip with a validation error.  The matching donations are those
sent by the caller with createdAt inside the inclusive range, ordered
newest first; the result carries the page slice (with the receiver
identity included per row), the echoed page and limit, the total match
count and the ceiling page count. -/
def getDonationsByDateRange (db : DB) (userId : Nat)
    (startDate endDate : Option Int) (page : Int := 1) (limit : Int := 10) :
    Except ServiceError RangeResult :=
  let skip := (page - 1) * limit
  match startDate, endDate with
  | some start, some stop =>
      if skip < 0 then .error (.store .invalidSkip)
      else
        let matching := db.donations.filter
          (fun d => d.senderId == userId && start ≤ d.createdAt && d.createdAt ≤ stop)
        let sorted := sortDescByCreatedAt matching
        .ok { data := (pageSlice sorted skip limit).map
                (fun d => { donation := d,
                            receiver := (findUser db d.receiverId).map publicUser }),
              pagination := { page := page, limit := limit,
                              total := matching.length,
                              pages := ceilPages matching.length limit } }
  | _, _ => .error (.msg "Invalid date format")

/-- A single donation as returned by getSingleDonation: the row with its
included receiver and sender identities and its linked transaction. -/
structure SingleDonationView where
  donation : Donation
  receiver : Option PublicUser
  sender : Option PublicUser
  transaction : Option Transaction
deriving Repr, DecidableEq

/-- getSingleDonation from the donation service: fetch the donation by id
with its relations; a missing id throws Donation not found; a caller who
is neither sender nor receiver gets Access denied.  A pure read: the
store is not touched. -/
def getSingleDonation (db : DB) (donationId userId : Nat) :
    Except ServiceError SingleDonationView :=
  match findDonation db donationId with
  | none => .error (.msg "Donation not found")
  | some d =>
      if d.senderId ≠ userId ∧ d.receiverId ≠ userId then
        .error (.msg "Access denied to this donation")
      else
        .ok { donation := d,
              receiver := (findUser db d.receiverId).map publicUser,
              sender := (findUser db d.senderId).map publicUser,
              transaction := db.transactions.find? (fun t => t.donationId == d.id) }

/-- The body of a POST donate request as destructured by the controller;
absent fields are none.  JS truthiness makes 0, the empty string and a
missing field all falsy. -/
structure DonateBody where
  receiverId : Option Nat
  amount : Option Rat
  pin : Option String
deriving Repr, DecidableEq

/-- JS truthiness of an optional numeric field. -/
def truthyNat : Option Nat → Bool
  | some n => n != 0
  | none => false

/-- JS truthiness of an optional decimal field. -/
def truthyRat : Option Rat → Bool
  | some a => a != 0
  | none => false

/-- JS truthiness of an optional string field. -/
def truthyStr : Option String → Bool
  | some s => s != ""
  | none => false

/-- An HTTP response of the donation controller: status, message, and on
201 the service result as the data payload. -/
structure EndpointResponse where
  status : Nat
  message : String
  data : Option (Option TxnResult)
deriving Repr, DecidableEq

/-- The tail of the controller after a verified PIN: a service success maps
to 201 with the transaction as data, a service error with one of the three
handled messages maps to 400 with that message, anything else to an opaque
500. -/
def endpointRespond (outcome : DonationOutcome) : EndpointResponse × DB :=
  match outcome.result with
  | .ok r =>
      ({ status := 201, message := "Donation successful", data := some r },
       outcome.db)
  | .error e =>
      if ["sender or receiver does not exist", "Cannot donate to yourself",
          "Insufficient funds in wallet"].contains (serviceErrorMessage e) then
        ({ status := 400, message := serviceErrorMessage e, data := none }, outcome.db)
      else
        ({ status := 500, message := "Internal: Unable to process donation",
           data := none }, outcome.db)

/-- createDonationEndpoint from the donation controller.  verifyPassword
stands for the bcrypt comparison imported from the hash utility, an
external credential component; it is passed in as the oracle comparing a
raw pin with a stored hash.  Order of the controller: idempotency-key
header present, body fields present (JS-truthy), amount positive, pin row
configured, pin verifies, then the service call. -/
def createDonationEndpoint (verifyPassword : String → String → Bool)
    (db : DB) (userId : Nat) (idempotencyKeyHeader : Option String)
    (body : DonateBody) : EndpointResponse × DB :=
  if ¬ truthyStr idempotencyKeyHeader then
    ({ status := 400, message := "Idempotency-Key header is required", data := none }, db)
  else if ¬ (truthyNat body.receiverId && truthyRat body.amount && truthyStr body.pin) then
    ({ status := 400, message := "All fields are required.", data := none }, db)
  else if body.amount.getD 0 ≤ 0 then
    ({ status := 400, message := "Amount must be greater than zero.", data := none }, db)
  else
    match findPin db userId with
    | none =>
        ({ status := 403, message := "Transaction PIN not set.", data := none }, db)
    | some transactionPin =>
        if ¬ verifyPassword (body.pin.getD "") transactionPin.pinHash then
          ({ status := 403, message := "Invalid transaction PIN.", data := none }, db)
        else
          endpointRespond (createDonation db userId (body.receiverId.getD 0)
            (body.amount.getD 0) (idempotencyKeyHeader.getD ""))

/-! Concrete stores used to evaluate the operations at explicit inputs. -/

/-- A store with two users, the sender wallet holding 5000, the receiver
wallet empty, and no history. -/
def exDB : DB :=
  { users := [{ id := 1, email := "a@x", name := "A" },
              { id := 2, email := "b@x", name := "B" }],
    wallets := [{ userId := 1, balance := 5000 }, { userId := 2, balance := 0 }],
    donations := [], transactions := [], idemKeys := [],
    pins := [{ userId := 1, pinHash := "H1" }],
    nextDonationId := 1, nextTxnId := 1, now := 0 }

/-- exDB after user 1 has made exactly one prior donation. -/
def exDBonePrior : DB :=
  { exDB with
      donations := [{ id := 1, senderId := 1, receiverId := 2, amount := 50, createdAt := 0 }],
      nextDonationId := 2 }

/-- exDB with the sender wallet holding only 500. -/
def exDBpoor : DB :=
  { exDB with wallets := [{ userId := 1, balance := 500 }, { userId := 2, balance := 0 }] }

/-- exDB with user 2 removed: the receiver of a request addressed to id 2
does not exist. -/
def exDBnoReceiver : DB :=
  { exDB with users := [{ id := 1, email := "a@x", name := "A" }] }

/-- A store holding one committed transfer under key K. -/
def exDBcommitted : DB :=
  { exDB with
      donations := [{ id := 1, senderId := 1, receiverId := 2, amount := 7, createdAt := 0 }],
      transactions := [{ id := 1, donationId := 1, amount := 7, type := "DONATION",
                         status := "COMPLETED", idempotencyKey := "K" }],
      idemKeys := [{ key := "K", transactionId := 1 }],
      nextDonationId := 2, nextTxnId := 2 }

/-! Helper lemmas about the store primitives. -/

theorem userId_update_fn (uid : Nat) (delta : Rat) (w : Wallet) :
    (if w.userId == uid then { w with balance := w.balance + delta } else w).userId
      = w.userId := by
  split <;> rfl

theorem hasWallet_updateWalletBalance (ws : List Wallet) (uid v : Nat) (delta : Rat) :
    hasWallet (updateWalletBalance ws uid delta) v = hasWallet ws v := by
  induction ws with
  | nil => rfl
  | cons x xs ih =>
      simp only [updateWalletBalance, hasWallet, List.map_cons, List.any_cons] at *
      rw [userId_update_fn, ih]

theorem map_userId_updateWalletBalance (ws : List Wallet) (uid : Nat) (delta : Rat) :
    (updateWalletBalance ws uid delta).map Wallet.userId = ws.map Wallet.userId := by
  induction ws with
  | nil => rfl
  | cons x xs ih =>
      simp only [updateWalletBalance, List.map_cons] at *
      rw [userId_update_fn, ih]

theorem find?_updateWalletBalance (ws : List Wallet) (uid v : Nat) (delta : Rat) :
    (updateWalletBalance ws uid delta).find? (fun w => w.userId == v)
      = (ws.find? (fun w => w.userId == v)).map
          (fun w => if w.userId == uid then { w with balance := w.balance + delta } else w) := by
  unfold updateWalletBalance
  rw [List.find?_map]
  have hp : ((fun w : Wallet => w.userId == v) ∘
      (fun w => if w.userId == uid then { w with balance := w.balance + delta } else w))
        = fun w : Wallet => w.userId == v := by
    funext w
    simp only [Function.comp_apply]
    rw [userId_update_fn]
  rw [hp]

theorem findWallet_userId (db : DB) (uid : Nat) (w : Wallet)
    (h : findWallet db uid = some w) : w.userId = uid := by
  have := List.find?_some h
  simpa using this

theorem hasWallet_of_findWallet (db : DB) (uid : Nat) (w : Wallet)
    (h : findWallet db uid = some w) : hasWallet db.wallets uid = true := by
  refine List.any_eq_true.mpr ⟨w, List.mem_of_find?_eq_some h, ?_⟩
  have := List.find?_some h
  simpa using this

theorem updateWalletBalance_not_mem (ws : List Wallet) (uid : Nat) (delta : Rat)
    (h : uid ∉ ws.map Wallet.userId) : updateWalletBalance ws uid delta = ws := by
  induction ws with
  | nil => rfl
  | cons x xs ih =>
      simp only [List.map_cons, List.mem_cons, not_or] at h
      simp only [updateWalletBalance, List.map_cons]
      have hx : (x.userId == uid) = false :=
        beq_eq_false_iff_ne.mpr (fun he => h.1 he.symm)
      rw [hx]
      simp only [Bool.false_eq_true, if_false]
      have := ih h.2
      simp only [updateWalletBalance] at this
      rw [this]

theorem sum_updateWalletBalance (ws : List Wallet) (uid : Nat) (delta : Rat)
    (hnd : (ws.map Wallet.userId).Nodup) (hw : hasWallet ws uid = true) :
    ((updateWalletBalance ws uid delta).map Wallet.balance).sum
      = (ws.map Wallet.balance).sum + delta := by
  induction ws with
  | nil => simp [hasWallet] at hw
  | cons x xs ih =>
      simp only [List.map_cons, List.nodup_cons] at hnd
      by_cases hx : (x.userId == uid) = true
      · have hxe : x.userId = uid := by simpa using hx
        have hnm : uid ∉ xs.map Wallet.userId := hxe ▸ hnd.1
        simp only [updateWalletBalance, List.map_cons, hx, if_true]
        rw [show xs.map (fun w => if w.userId == uid then { w with balance := w.balance + delta } else w) = updateWalletBalance xs uid delta from rfl]
        rw [updateWalletBalance_not_mem xs uid delta hnm]
        simp only [List.map_cons, List.sum_cons]
        ring
      · have hxs : hasWallet xs uid = true := by
          simp only [hasWallet, List.any_cons, hx, Bool.false_or] at hw
          exact hw
        simp only [updateWalletBalance, List.map_cons, hx, Bool.false_eq_true, if_false]
        rw [show xs.map (fun w => if w.userId == uid then { w with balance := w.balance + delta } else w) = updateWalletBalance xs uid delta from rfl]
        simp only [List.sum_cons]
        rw [ih hnd.2 hxs]
        ring

theorem find?_eq_of_nodup_mem (ws : List Wallet) (w : Wallet)
    (hnd : (ws.map Wallet.userId).Nodup) (hm : w ∈ ws) :
    ws.find? (fun x => x.userId == w.userId) = some w := by
  induction ws with
  | nil => simp at hm
  | cons x xs ih =>
      simp only [List.map_cons, List.nodup_cons] at hnd
      rcases List.mem_cons.mp hm with h | h
      · subst h
        simp [List.find?_cons]
      · have hne : x.userId ≠ w.userId := by
          intro he
          exact hnd.1 (he ▸ (List.mem_map.mpr ⟨w, h, rfl⟩))
        have hx : (x.userId == w.userId) = false := by
          simpa using hne
        simp only [List.find?_cons, hx]
        exact ih hnd.2 h

/-! Path lemmas for createDonation. -/

theorem createDonation_replay (db : DB) (u r : Nat) (a : Rat) (k : String)
    (rec : IdemKey) (hk : findIdemKey db k = some rec) :
    createDonation db u r a k =
      { db := db, result := .ok (replayResult db rec.transactionId),
        notifications := [] } := by
  unfold createDonation createDonationRaced
  rw [hk]

theorem createDonation_self (db : DB) (u : Nat) (a : Rat) (k : String)
    (hk : findIdemKey db k = none) (ha : 0 < a) :
    createDonation db u u a k =
      { db := db, result := .error (.msg "Cannot donate to yourself"),
        notifications := [] } := by
  unfold createDonation createDonationRaced
  rw [hk]
  simp [not_le.mpr ha]

theorem createDonation_partyMissing (db : DB) (u r : Nat) (a : Rat) (k : String)
    (hk : findIdemKey db k = none) (ha : 0 < a) (hur : u ≠ r)
    (hmiss : findUser db u = none ∨ findUser db r = none) :
    createDonation db u r a k =
      { db := db, result := .error (.msg "sender or receiver does not exist"),
        notifications := [] } := by
  unfold createDonation createDonationRaced
  rw [hk]
  simp only [id_eq, if_neg (not_le.mpr ha), if_neg hur]
  rcases hmiss with h | h
  · rw [h]
  · cases hu : findUser db u <;> simp [h]

theorem createDonation_insufficient (db : DB) (u r : Nat) (a : Rat) (k : String)
    (sender : User) (w : Wallet)
    (hk : findIdemKey db k = none) (ha : 0 < a) (hur : u ≠ r)
    (hs : findUser db u = some sender) (hr : (findUser db r).isSome = true)
    (hw : findWallet db u = some w) (hlt : w.balance < a) :
    createDonation db u r a k =
      { db := db, result := .error (.msg "Insufficient funds in wallet"),
        notifications := [] } := by
  obtain ⟨recv, hrecv⟩ := Option.isSome_iff_exists.mp hr
  unfold createDonation createDonationRaced
  rw [hk]
  simp only [id_eq, if_neg (not_le.mpr ha), if_neg hur]
  rw [hs, hrecv, hw]
  simp [hlt]

theorem runAtomicUnit_success (db : DB) (u r : Nat) (a : Rat) (k : String)
    (hsw : hasWallet db.wallets u = true)
    (hrw : hasWallet db.wallets r = true)
    (htk : ∀ t ∈ db.transactions, t.idempotencyKey ≠ k ∧ t.donationId ≠ db.nextDonationId)
    (hik : ∀ x ∈ db.idemKeys, x.key ≠ k ∧ x.transactionId ≠ db.nextTxnId) :
    runAtomicUnit db u r a k = .ok (commitDB db u r a k, newTxn db a k) := by
  have h1 : db.transactions.any
      (fun t => t.idempotencyKey == k || t.donationId == db.nextDonationId) = false := by
    rw [List.any_eq_false]
    intro t ht
    simp only [Bool.or_eq_true, beq_iff_eq, not_or]
    exact htk t ht
  have h2 : db.idemKeys.any
      (fun x => x.key == k || x.transactionId == db.nextTxnId) = false := by
    rw [List.any_eq_false]
    intro x hx
    simp only [Bool.or_eq_true, beq_iff_eq, not_or]
    exact hik x hx
  unfold runAtomicUnit
  simp only [hsw, hasWallet_updateWalletBalance, hrw, if_true, h1, h2,
    Bool.false_eq_true, if_false]

theorem getDonationCount_commit (db : DB) (u r : Nat) (a : Rat) (k : String) :
    getDonationCount (commitDB db u r a k) u = getDonationCount db u + 1 := by
  simp [getDonationCount, commitDB, newDonation, List.filter_append]

theorem createDonation_success (db : DB) (u r : Nat) (a : Rat) (k : String)
    (sender : User) (w : Wallet)
    (hk : findIdemKey db k = none) (ha : 0 < a) (hur : u ≠ r)
    (hs : findUser db u = some sender) (hr : (findUser db r).isSome = true)
    (hw : findWallet db u = some w) (hb : a ≤ w.balance)
    (hrw : hasWallet db.wallets r = true)
    (htk : ∀ t ∈ db.transactions, t.idempotencyKey ≠ k ∧ t.donationId ≠ db.nextDonationId)
    (hik : ∀ x ∈ db.idemKeys, x.transactionId ≠ db.nextTxnId) :
    createDonation db u r a k =
      { db := commitDB db u r a k,
        result := .ok (some { txn := newTxn db a k, donation := none }),
        notifications :=
          if 2 ≤ getDonationCount db u + 1 then [(sender.email, sender.name)]
          else [] } := by
  obtain ⟨recv, hrecv⟩ := Option.isSome_iff_exists.mp hr
  have hknone := List.find?_eq_none.mp hk
  have hik' : ∀ x ∈ db.idemKeys, x.key ≠ k ∧ x.transactionId ≠ db.nextTxnId := by
    intro x hx
    refine ⟨?_, hik x hx⟩
    have := hknone x hx
    simpa using this
  have hrun := runAtomicUnit_success db u r a k (hasWallet_of_findWallet db u w hw) hrw htk hik'
  unfold createDonation createDonationRaced
  rw [hk]
  simp only [id_eq, if_neg (not_le.mpr ha), if_neg hur]
  rw [hs, hrecv, hw]
  simp only [if_neg (not_lt.mpr hb)]
  rw [hrun]
  simp only [getDonationCount_commit]

theorem findIdemKey_commit (db : DB) (u r : Nat) (a : Rat) (k : String)
    (hk : findIdemKey db k = none) :
    findIdemKey (commitDB db u r a k) k
      = some { key := k, transactionId := db.nextTxnId } := by
  unfold findIdemKey at hk ⊢
  simp only [commitDB, List.find?_append, hk, Option.none_or]
  simp

theorem findTransaction_commit (db : DB) (u r : Nat) (a : Rat) (k : String)
    (hfresh : ∀ t ∈ db.transactions, t.id ≠ db.nextTxnId) :
    findTransaction (commitDB db u r a k) db.nextTxnId = some (newTxn db a k) := by
  have h1 : db.transactions.find? (fun t => t.id == db.nextTxnId) = none :=
    List.find?_eq_none.mpr (fun t ht => by simpa using hfresh t ht)
  unfold findTransaction
  simp only [commitDB, List.find?_append, h1, Option.none_or]
  simp [newTxn]

theorem findDonation_commit (db : DB) (u r : Nat) (a : Rat) (k : String)
    (hfresh : ∀ d ∈ db.donations, d.id ≠ db.nextDonationId) :
    findDonation (commitDB db u r a k) db.nextDonationId
      = some (newDonation db u r a) := by
  have h1 : db.donations.find? (fun d => d.id == db.nextDonationId) = none :=
    List.find?_eq_none.mpr (fun d hd => by simpa using hfresh d hd)
  unfold findDonation
  simp only [commitDB, List.find?_append, h1, Option.none_or]
  simp [newDonation]

theorem runAtomicUnit_ok_eq (db : DB) (u r : Nat) (a : Rat) (k : String)
    (db2 : DB) (txn : Transaction)
    (h : runAtomicUnit db u r a k = .ok (db2, txn)) :
    db2 = commitDB db u r a k ∧ txn = newTxn db a k := by
  unfold runAtomicUnit at h
  split at h
  · split at h
    · split at h
      · exact Except.noConfusion h
      · split at h
        · exact Except.noConfusion h
        · simp only [Except.ok.injEq, Prod.mk.injEq] at h
          exact ⟨h.1.symm, h.2.symm⟩
    · exact Except.noConfusion h
  · exact Except.noConfusion h

theorem runAtomicUnit_uniqueViolation (db : DB) (u r : Nat) (a : Rat) (k : String)
    (hsw : hasWallet db.wallets u = true)
    (hrw : hasWallet db.wallets r = true)
    (hconf : ∃ t0 ∈ db.transactions, t0.idempotencyKey = k) :
    runAtomicUnit db u r a k = .error .uniqueViolation := by
  obtain ⟨t0, ht0, ht0k⟩ := hconf
  have h1 : db.transactions.any
      (fun t => t.idempotencyKey == k || t.donationId == db.nextDonationId) = true :=
    List.any_eq_true.mpr ⟨t0, ht0, by simp [ht0k]⟩
  unfold runAtomicUnit
  simp only [hsw, hasWallet_updateWalletBalance, hrw, if_true, h1, if_true]

theorem createDonation_db_cases (db : DB) (u r : Nat) (a : Rat) (k : String) :
    (createDonation db u r a k).db = db ∨
    (∃ w : Wallet, findWallet db u = some w ∧ 0 < a ∧ u ≠ r ∧ a ≤ w.balance ∧
      (createDonation db u r a k).db = commitDB db u r a k) := by
  unfold createDonation createDonationRaced
  cases hk : findIdemKey db k with
  | some rec => left; rfl
  | none =>
    simp only [id_eq]
    split
    · left; rfl
    next hna =>
    split
    · left; rfl
    next hur =>
    split
    · next sender x hu hv =>
      split
      · next w hw =>
        split
        · left; rfl
        next hbl =>
        split
        · next db2 txn hrun =>
          obtain ⟨hdb2, -⟩ := runAtomicUnit_ok_eq db u r a k db2 txn hrun
          right
          exact ⟨w, hw, not_le.mp hna, hur, not_lt.mp hbl, hdb2⟩
        all_goals left
        all_goals try rfl
        all_goals rw [hk]
      · left; rfl
    · left; rfl

theorem wallets_nonneg_after (db : DB) (u r : Nat) (a : Rat) (k : String)
    (hnd : (db.wallets.map Wallet.userId).Nodup)
    (hpos : ∀ w ∈ db.wallets, 0 ≤ w.balance) :
    ∀ w2 ∈ (createDonation db u r a k).db.wallets, 0 ≤ w2.balance := by
  rcases createDonation_db_cases db u r a k with h | ⟨w, hw, ha, hur, hb, h⟩
  · rw [h]; exact hpos
  · rw [h]
    intro w2 hw2
    simp only [commitDB, updateWalletBalance] at hw2
    obtain ⟨y, hy, rfl⟩ := List.mem_map.mp hw2
    obtain ⟨w0, hw0, rfl⟩ := List.mem_map.mp hy
    by_cases h1 : w0.userId = u
    · have hfw : db.wallets.find? (fun x => x.userId == w0.userId) = some w0 :=
        find?_eq_of_nodup_mem db.wallets w0 hnd hw0
      rw [h1] at hfw
      unfold findWallet at hw
      have hww : w0 = w := Option.some.inj (hfw.symm.trans hw)
      subst hww
      have hru : (w0.userId == u) = true := by simpa using h1
      have hrr : (w0.userId == r) = false := by
        refine beq_eq_false_iff_ne.mpr ?_
        rw [h1]; exact hur
      simp only [hru, if_true, hrr, Bool.false_eq_true, if_false]
      have hba : a ≤ w0.balance := hb
      linarith
    · have hru : (w0.userId == u) = false := beq_eq_false_iff_ne.mpr h1
      simp only [hru, Bool.false_eq_true, if_false]
      by_cases h2 : w0.userId = r
      · have hrr : (w0.userId == r) = true := by simpa using h2
        simp only [hrr, if_true]
        have := hpos w0 hw0
        linarith
      · have hrr : (w0.userId == r) = false := beq_eq_false_iff_ne.mpr h2
        simp only [hrr, Bool.false_eq_true, if_false]
        exact hpos w0 hw0

theorem commitDB_wallets (db : DB) (u r : Nat) (a : Rat) (k : String) :
    (commitDB db u r a k).wallets
      = updateWalletBalance (updateWalletBalance db.wallets u (-a)) r a := rfl

theorem findWallet_commit_sender (db : DB) (u r : Nat) (a : Rat) (k : String)
    (w : Wallet) (hw : findWallet db u = some w) (hur : u ≠ r) :
    findWallet (commitDB db u r a k) u = some { w with balance := w.balance - a } := by
  have hwu : (w.userId == u) = true := by
    simpa using findWallet_userId db u w hw
  have hwr : (w.userId == r) = false :=
    beq_eq_false_iff_ne.mpr (by rw [findWallet_userId db u w hw]; exact hur)
  unfold findWallet at hw ⊢
  rw [commitDB_wallets, find?_updateWalletBalance, find?_updateWalletBalance, hw]
  simp only [Option.map_some', hwu, if_true, hwr, Bool.false_eq_true, if_false,
    Option.some.injEq]
  rw [sub_eq_add_neg]

theorem findWallet_commit_receiver (db : DB) (u r : Nat) (a : Rat) (k : String)
    (rw' : Wallet) (hrw : findWallet db r = some rw') (hur : u ≠ r) :
    findWallet (commitDB db u r a k) r = some { rw' with balance := rw'.balance + a } := by
  have hru : (rw'.userId == u) = false :=
    beq_eq_false_iff_ne.mpr (by rw [findWallet_userId db r rw' hrw]; exact fun he => hur he.symm)
  have hrr : (rw'.userId == r) = true := by
    simpa using findWallet_userId db r rw' hrw
  unfold findWallet at hrw ⊢
  rw [commitDB_wallets, find?_updateWalletBalance, find?_updateWalletBalance, hrw]
  simp only [Option.map_some', hru, Bool.false_eq_true, if_false, hrr, if_true]

theorem sum_balances_commit (db : DB) (u r : Nat) (a : Rat) (k : String)
    (hnd : (db.wallets.map Wallet.userId).Nodup)
    (hsw : hasWallet db.wallets u = true)
    (hrw : hasWallet db.wallets r = true) :
    ((commitDB db u r a k).wallets.map Wallet.balance).sum
      = (db.wallets.map Wallet.balance).sum := by
  rw [commitDB_wallets]
  rw [sum_updateWalletBalance _ r a
    (by rw [map_userId_updateWalletBalance]; exact hnd)
    (by rw [hasWallet_updateWalletBalance]; exact hrw)]
  rw [sum_updateWalletBalance _ u (-a) hnd hsw]
  ring

/-! Claim theorems. -/

/-- C2: conservation of funds.  For a committed transfer of amount a with a
fresh idempotency key, the receiver wallet balance rises by exactly a, the
sender wallet balance falls by exactly a, the sum of all wallet balances is
unchanged, and exactly one Donation row, one Transaction row and one
IdempotencyKey row are appended, all by the same atomic unit, while the
returned value is the new COMPLETED transaction. -/
theorem C2_conservation (db : DB) (u r : Nat) (a : Rat) (k : String)
    (sender : User) (w rw' : Wallet)
    (hnd : (db.wallets.map Wallet.userId).Nodup)
    (hk : findIdemKey db k = none) (ha : 0 < a) (hur : u ≠ r)
    (hs : findUser db u = some sender) (hr : (findUser db r).isSome = true)
    (hw : findWallet db u = some w) (hb : a ≤ w.balance)
    (hrw : findWallet db r = some rw')
    (htk : ∀ t ∈ db.transactions, t.idempotencyKey ≠ k ∧ t.donationId ≠ db.nextDonationId)
    (hik : ∀ x ∈ db.idemKeys, x.transactionId ≠ db.nextTxnId) :
    findWallet (createDonation db u r a k).db u
        = some { w with balance := w.balance - a } ∧
    findWallet (createDonation db u r a k).db r
        = some { rw' with balance := rw'.balance + a } ∧
    ((createDonation db u r a k).db.wallets.map Wallet.balance).sum
        = (db.wallets.map Wallet.balance).sum ∧
    (createDonation db u r a k).db.donations = db.donations ++ [newDonation db u r a] ∧
    (createDonation db u r a k).db.transactions = db.transactions ++ [newTxn db a k] ∧
    (createDonation db u r a k).db.idemKeys
        = db.idemKeys ++ [{ key := k, transactionId := db.nextTxnId }] ∧
    (createDonation db u r a k).result
        = .ok (some { txn := newTxn db a k, donation := none }) := by
  have hmain := createDonation_success db u r a k sender w hk ha hur hs hr hw hb
    (hasWallet_of_findWallet db r rw' hrw) htk hik
  rw [hmain]
  refine ⟨?_, ?_, ?_, rfl, rfl, rfl, rfl⟩
  · exact findWallet_commit_sender db u r a k w hw hur
  · exact findWallet_commit_receiver db u r a k rw' hrw hur
  · exact sum_balances_commit db u r a k hnd (hasWallet_of_findWallet db u w hw)
      (hasWallet_of_findWallet db r rw' hrw)

/-- C2 witness: the spec scenario.  Sender balance 5000, transfer 1000 to a
receiver with balance 0 under key abc: sender ends at 4000, receiver at
1000, the total is unchanged and one row of each kind is appended. -/
theorem C2_conservation_witness :
    findWallet (createDonation exDB 1 2 1000 "abc").db 1
        = some { userId := 1, balance := 4000 } ∧
    findWallet (createDonation exDB 1 2 1000 "abc").db 2
        = some { userId := 2, balance := 1000 } ∧
    ((createDonation exDB 1 2 1000 "abc").db.wallets.map Wallet.balance).sum
        = (exDB.wallets.map Wallet.balance).sum := by
  obtain ⟨h1, h2, h3, -⟩ :=
    C2_conservation exDB 1 2 1000 "abc" { id := 1, email := "a@x", name := "A" }
      { userId := 1, balance := 5000 } { userId := 2, balance := 0 }
      (by decide) (by decide) (by decide) (by decide) (by decide) (by decide)
      (by decide) (by decide) (by decide) (by decide) (by decide)
  refine ⟨?_, ?_, h3⟩
  · rw [h1]; norm_num
  · rw [h2]; norm_num

/-- C8: self-transfer rejection.  With a fresh idempotency key and a
positive amount, a request whose receiver equals the sender fails with the
self-donation error and leaves the store untouched, for every store and so
for every sender balance. -/
theorem C8_self_transfer (db : DB) (u : Nat) (a : Rat) (k : String)
    (hk : findIdemKey db k = none) (ha : 0 < a) :
    createDonation db u u a k =
      { db := db, result := .error (.msg "Cannot donate to yourself"),
        notifications := [] } :=
  createDonation_self db u a k hk ha

/-- C8 witness: a concrete self-transfer with ample balance is rejected and
nothing is mutated. -/
theorem C8_self_transfer_witness :
    createDonation exDB 1 1 5 "z" =
      { db := exDB, result := .error (.msg "Cannot donate to yourself"),
        notifications := [] } :=
  C8_self_transfer exDB 1 5 "z" (by decide) (by decide)

/-- C9: single-fetch access control.  A missing donation id fails with
Donation not found; an existing donation fetched by a caller who is
neither sender nor receiver fails with Access denied; sender or receiver
get the donation with its linked transaction and both parties public
identity fields.  getSingleDonation is a read: it returns no store. -/
theorem C9_single_fetch (db : DB) (did uid : Nat) :
    (findDonation db did = none →
      getSingleDonation db did uid = .error (.msg "Donation not found")) ∧
    (∀ d, findDonation db did = some d → d.senderId ≠ uid → d.receiverId ≠ uid →
      getSingleDonation db did uid = .error (.msg "Access denied to this donation")) ∧
    (∀ d, findDonation db did = some d → (d.senderId = uid ∨ d.receiverId = uid) →
      getSingleDonation db did uid =
        .ok { donation := d,
              receiver := (findUser db d.receiverId).map publicUser,
              sender := (findUser db d.senderId).map publicUser,
              transaction := db.transactions.find? (fun t => t.donationId == d.id) }) := by
  refine ⟨?_, ?_, ?_⟩
  · intro h
    unfold getSingleDonation
    rw [h]
  · intro d h h1 h2
    unfold getSingleDonation
    rw [h]
    exact if_pos ⟨h1, h2⟩
  · intro d h hacc
    unfold getSingleDonation
    rw [h]
    exact if_neg (fun hcon => hacc.elim (fun he => hcon.1 he) (fun he => hcon.2 he))

/-- C9 witness: on a store with one donation from user 1 to user 2, the
sender can fetch it, user 3 is denied, and a missing id is not found. -/
theorem C9_single_fetch_witness :
    getSingleDonation exDBonePrior 1 1 =
      .ok { donation := { id := 1, senderId := 1, receiverId := 2, amount := 50, createdAt := 0 },
            receiver := some { id := 2, name := "B", email := "b@x" },
            sender := some { id := 1, name := "A", email := "a@x" },
            transaction := none } ∧
    getSingleDonation exDBonePrior 1 3 = .error (.msg "Access denied to this donation") ∧
    getSingleDonation exDBonePrior 9 1 = .error (.msg "Donation not found") := by
  refine ⟨?_, ?_, ?_⟩
  · have h := (C9_single_fetch exDBonePrior 1 1).2.2
      { id := 1, senderId := 1, receiverId := 2, amount := 50, createdAt := 0 }
      (by decide) (Or.inl (by decide))
    rw [h]; decide
  · exact (C9_single_fetch exDBonePrior 1 3).2.1
      { id := 1, senderId := 1, receiverId := 2, amount := 50, createdAt := 0 }
      (by decide) (by decide) (by decide)
  · exact (C9_single_fetch exDBonePrior 9 1).1 (by decide)

/-- C10: the replay outcome depends only on the key.  Once an idempotency
record exists for key k, createDonation returns the transaction recorded
for k whatever the sender, receiver and amount arguments are: two calls
differing only in those arguments are equal, no validation runs, and the
store is left untouched. -/
theorem C10_replay_key_only (db : DB) (k : String) (rec : IdemKey)
    (hk : findIdemKey db k = some rec) :
    ∀ u r u2 r2 : Nat, ∀ a a2 : Rat,
      createDonation db u r a k = createDonation db u2 r2 a2 k ∧
      createDonation db u r a k =
        { db := db, result := .ok (replayResult db rec.transactionId),
          notifications := [] } := by
  intro u r u2 r2 a a2
  refine ⟨?_, createDonation_replay db u r a k rec hk⟩
  rw [createDonation_replay db u r a k rec hk,
    createDonation_replay db u2 r2 a2 k rec hk]

/-- C10 witness: on a store holding a committed transfer under key K, a
replay with unrelated sender 99, receiver 98 and amount 97 — even a
self-transfer with amount 0 — returns the original transaction. -/
theorem C10_replay_key_only_witness :
    createDonation exDBcommitted 1 2 7 "K" = createDonation exDBcommitted 99 98 97 "K" ∧
    createDonation exDBcommitted 5 5 0 "K" =
      { db := exDBcommitted,
        result := .ok (replayResult exDBcommitted 1), notifications := [] } := by
  refine ⟨?_, ?_⟩
  · exact (C10_replay_key_only exDBcommitted "K" { key := "K", transactionId := 1 }
      (by decide) 1 2 99 98 7 97).1
  · exact (C10_replay_key_only exDBcommitted "K" { key := "K", transactionId := 1 }
      (by decide) 5 5 5 5 0 0).2

/-- C1 counterexample: on the spec scenario store (sender balance 5000,
transfer 1000 under key abc) the second call returns the same transaction
ids but a response that is not identical to the first: the replay includes
the linked Donation row while the fresh commit returned the bare
transaction. -/
theorem C1_replay_response_counterexample :
    (createDonation (createDonation exDB 1 2 1000 "abc").db 1 2 1000 "abc").result
        ≠ (createDonation exDB 1 2 1000 "abc").result ∧
    (createDonation exDB 1 2 1000 "abc").result
        = .ok (some { txn := newTxn exDB 1000 "abc", donation := none }) ∧
    (createDonation (createDonation exDB 1 2 1000 "abc").db 1 2 1000 "abc").result
        = .ok (some { txn := newTxn exDB 1000 "abc",
                      donation := some (newDonation exDB 1 2 1000) }) := by
  refine ⟨by decide, by decide, by decide⟩

/-- C1 amended: idempotent replay up to the donation include.  After a
committed first call, the second call with the same key mutates nothing
(same store, no notification), returns a transaction with identical id and
donationId — indeed identical in every Transaction field — and exactly one
IdempotencyKey row and one Donation row exist for the key; the only
difference from the first response is that the replay additionally embeds
the linked Donation row, which the fresh commit had returned as none. -/
theorem C1_idempotent_replay_amended (db : DB) (u r : Nat) (a : Rat) (k : String)
    (sender : User) (w : Wallet)
    (hk : findIdemKey db k = none) (ha : 0 < a) (hur : u ≠ r)
    (hs : findUser db u = some sender) (hr : (findUser db r).isSome = true)
    (hw : findWallet db u = some w) (hb : a ≤ w.balance)
    (hrw : hasWallet db.wallets r = true)
    (htk : ∀ t ∈ db.transactions, t.idempotencyKey ≠ k ∧ t.donationId ≠ db.nextDonationId)
    (hik : ∀ x ∈ db.idemKeys, x.transactionId ≠ db.nextTxnId)
    (htid : ∀ t ∈ db.transactions, t.id ≠ db.nextTxnId)
    (hdid : ∀ d ∈ db.donations, d.id ≠ db.nextDonationId) :
    (createDonation db u r a k).result
        = .ok (some { txn := newTxn db a k, donation := none }) ∧
    createDonation (createDonation db u r a k).db u r a k
        = { db := (createDonation db u r a k).db,
            result := .ok (some { txn := newTxn db a k,
                                  donation := some (newDonation db u r a) }),
            notifications := [] } ∧
    ((createDonation db u r a k).db.idemKeys.filter (fun x => x.key == k)).length = 1 ∧
    ((createDonation db u r a k).db.donations.filter
        (fun d => d.id == (newTxn db a k).donationId)).length = 1 := by
  have hmain := createDonation_success db u r a k sender w hk ha hur hs hr hw hb hrw htk hik
  have hfk := findIdemKey_commit db u r a k hk
  have hreplay := createDonation_replay (commitDB db u r a k) u r a k _ hfk
  refine ⟨?_, ?_, ?_, ?_⟩
  · rw [hmain]
  · simp only [hmain]
    rw [hreplay]
    unfold replayResult
    rw [show ({ key := k, transactionId := db.nextTxnId } : IdemKey).transactionId
          = db.nextTxnId from rfl,
      findTransaction_commit db u r a k htid]
    simp only [Option.map_some']
    rw [show (newTxn db a k).donationId = db.nextDonationId from rfl,
      findDonation_commit db u r a k hdid]
  · simp only [hmain]
    have hold : db.idemKeys.filter (fun x => x.key == k) = [] := by
      rw [List.filter_eq_nil_iff]
      intro x hx
      simpa using List.find?_eq_none.mp hk x hx
    simp [commitDB, List.filter_append, hold]
  · simp only [hmain]
    have hold : db.donations.filter (fun d => d.id == (newTxn db a k).donationId) = [] := by
      rw [List.filter_eq_nil_iff]
      intro d hd
      simpa [newTxn] using hdid d hd
    simp [commitDB, List.filter_append, hold, newDonation, newTxn]
    exact hdid

/-- C1 witness: the amended replay behaviour at the spec scenario store. -/
theorem C1_idempotent_replay_witness :
    (createDonation exDB 1 2 1000 "abc").result
        = .ok (some { txn := newTxn exDB 1000 "abc", donation := none }) ∧
    ((createDonation exDB 1 2 1000 "abc").db.idemKeys.filter
        (fun x => x.key == "abc")).length = 1 := by
  obtain ⟨h1, h2, h3, h4⟩ := C1_idempotent_replay_amended exDB 1 2 1000 "abc"
    { id := 1, email := "a@x", name := "A" } { userId := 1, balance := 5000 }
    (by decide) (by decide) (by decide) (by decide) (by decide) (by decide)
    (by decide) (by decide) (by decide) (by decide) (by decide) (by decide)
  exact ⟨h1, h3⟩

/-- C3: no negative balances.  From any store whose wallets are all
non-negative (with the unique userId index), every store reachable through
createDonation keeps every wallet balance non-negative; and a transfer
whose amount exceeds the sender balance — all earlier checks passing —
fails with the insufficient-funds error, mutating nothing and creating no
row. -/
theorem C3_no_negative_balances (db : DB) (u r : Nat) (a : Rat) (k : String)
    (hnd : (db.wallets.map Wallet.userId).Nodup)
    (hpos : ∀ w ∈ db.wallets, 0 ≤ w.balance) :
    (∀ w2 ∈ (createDonation db u r a k).db.wallets, 0 ≤ w2.balance) ∧
    (∀ (sender : User) (w : Wallet),
      findIdemKey db k = none → 0 < a → u ≠ r →
      findUser db u = some sender → (findUser db r).isSome = true →
      findWallet db u = some w → w.balance < a →
      createDonation db u r a k =
        { db := db, result := .error (.msg "Insufficient funds in wallet"),
          notifications := [] }) := by
  refine ⟨wallets_nonneg_after db u r a k hnd hpos, ?_⟩
  intro sender w hk ha hur hs hr hw hlt
  exact createDonation_insufficient db u r a k sender w hk ha hur hs hr hw hlt

/-- C3 witness: the spec scenario with sender balance 500 and amount 1000:
balances stay non-negative and the call fails with InsufficientFunds
leaving the store untouched. -/
theorem C3_no_negative_balances_witness :
    (∀ w2 ∈ (createDonation exDBpoor 1 2 1000 "k3").db.wallets, 0 ≤ w2.balance) ∧
    createDonation exDBpoor 1 2 1000 "k3" =
      { db := exDBpoor, result := .error (.msg "Insufficient funds in wallet"),
        notifications := [] } := by
  obtain ⟨h1, h2⟩ := C3_no_negative_balances exDBpoor 1 2 1000 "k3" (by decide) (by decide)
  exact ⟨h1, h2 { id := 1, email := "a@x", name := "A" } { userId := 1, balance := 500 }
    (by decide) (by decide) (by decide) (by decide) (by decide) (by decide) (by decide)⟩

/-- C5 counterexample: a sender with exactly one prior donation makes a
successful transfer and the service dispatches exactly one thank-you
notification, where the claim predicts zero dispatches for fewer than two
prior donations. -/
theorem C5_notification_counterexample :
    getDonationCount exDBonePrior 1 = 1 ∧
    (createDonation exDBonePrior 1 2 1000 "k5").result
        = .ok (some { txn := newTxn exDBonePrior 1000 "k5", donation := none }) ∧
    (createDonation exDBonePrior 1 2 1000 "k5").notifications = [("a@x", "A")] := by
  refine ⟨by decide, by decide, by decide⟩

/-- C5 amended: the notification threshold counts the new donation.  A
successful transfer dispatches exactly one thank-you notification, with
the sender email and name, precisely when the sender had at least one
prior donation (the post-commit lifetime count then reaches 2), and zero
notifications when the sender had none. -/
theorem C5_notification_amended (db : DB) (u r : Nat) (a : Rat) (k : String)
    (sender : User) (w : Wallet)
    (hk : findIdemKey db k = none) (ha : 0 < a) (hur : u ≠ r)
    (hs : findUser db u = some sender) (hr : (findUser db r).isSome = true)
    (hw : findWallet db u = some w) (hb : a ≤ w.balance)
    (hrw : hasWallet db.wallets r = true)
    (htk : ∀ t ∈ db.transactions, t.idempotencyKey ≠ k ∧ t.donationId ≠ db.nextDonationId)
    (hik : ∀ x ∈ db.idemKeys, x.transactionId ≠ db.nextTxnId) :
    (createDonation db u r a k).notifications
      = if 1 ≤ getDonationCount db u then [(sender.email, sender.name)] else [] := by
  have hmain := createDonation_success db u r a k sender w hk ha hur hs hr hw hb hrw htk hik
  simp only [hmain]
  simp only [show (2 ≤ getDonationCount db u + 1) ↔ (1 ≤ getDonationCount db u) from
    by omega]

/-- C5 amended witness: one prior donation leads to exactly one dispatch. -/
theorem C5_notification_amended_witness :
    (createDonation exDBonePrior 1 2 1000 "k5").notifications = [("a@x", "A")] := by
  have h := C5_notification_amended exDBonePrior 1 2 1000 "k5"
    { id := 1, email := "a@x", name := "A" } { userId := 1, balance := 5000 }
    (by decide) (by decide) (by decide) (by decide) (by decide) (by decide)
    (by decide) (by decide) (by decide) (by decide)
  rw [h]
  decide

/-- C4: race convergence via the uniqueness conflict.  If a concurrent
execution committed the transfer for key k between this call-s idempotency
lookup and its atomic unit — so a transaction carrying k now exists, the
unit raises P2002, and an idempotency record exists for k — createDonation
does not raise: it re-reads the record, returns its transaction with the
linked donation as a normal success, commits nothing itself, and its
outcome equals the plain replay path run against the interfered store, so
at most one debit/credit pair is committed for the key. -/
theorem C4_race_convergence (db db2 : DB) (interfere : DB → DB)
    (u r : Nat) (a : Rat) (k : String)
    (sender : User) (w : Wallet) (rec : IdemKey) (t : Transaction)
    (hint : interfere db = db2)
    (hk : findIdemKey db k = none)
    (ha : 0 < a) (hur : u ≠ r)
    (hs : findUser db2 u = some sender) (hr : (findUser db2 r).isSome = true)
    (hw : findWallet db2 u = some w) (hb : a ≤ w.balance)
    (hrw : hasWallet db2.wallets r = true)
    (hconf : ∃ t0 ∈ db2.transactions, t0.idempotencyKey = k)
    (hre : findIdemKey db2 k = some rec)
    (hrid : rec.transactionId ≠ 0)
    (ht : findTransaction db2 rec.transactionId = some t) :
    createDonationRaced db u r a k interfere =
      { db := db2,
        result := .ok (some { txn := t, donation := findDonation db2 t.donationId }),
        notifications := [] } ∧
    createDonationRaced db u r a k interfere = createDonation db2 u r a k := by
  have hrun := runAtomicUnit_uniqueViolation db2 u r a k
    (hasWallet_of_findWallet db2 u w hw) hrw hconf
  obtain ⟨recv, hrecv⟩ := Option.isSome_iff_exists.mp hr
  have hmain : createDonationRaced db u r a k interfere =
      { db := db2, result := .ok (replayResult db2 rec.transactionId),
        notifications := [] } := by
    unfold createDonationRaced
    rw [hk]
    simp only [hint]
    rw [if_neg (not_le.mpr ha), if_neg hur, hs, hrecv, hw]
    simp only [if_neg (not_lt.mpr hb)]
    rw [hrun, hre]
    simp only [if_pos hrid]
  constructor
  · rw [hmain]
    unfold replayResult
    rw [ht]
    simp only [Option.map_some']
  · rw [hmain, createDonation_replay db2 u r a k rec hre]

/-- C4 witness: a loser of the race.  The first lookup sees a fresh key K,
the interference installs the committed transfer for K, and the call
converges on the committed transaction without raising. -/
theorem C4_race_convergence_witness :
    createDonationRaced exDB 1 2 7 "K" (fun _ => exDBcommitted) =
      { db := exDBcommitted,
        result := .ok (some { txn := { id := 1, donationId := 1, amount := 7,
                                       type := "DONATION", status := "COMPLETED",
                                       idempotencyKey := "K" },
                              donation := findDonation exDBcommitted 1 }),
        notifications := [] } ∧
    createDonationRaced exDB 1 2 7 "K" (fun _ => exDBcommitted)
      = createDonation exDBcommitted 1 2 7 "K" := by
  obtain ⟨h1, h2⟩ := C4_race_convergence exDB exDBcommitted (fun _ => exDBcommitted)
    1 2 7 "K" { id := 1, email := "a@x", name := "A" }
    { userId := 1, balance := 5000 } { key := "K", transactionId := 1 }
    { id := 1, donationId := 1, amount := 7, type := "DONATION",
      status := "COMPLETED", idempotencyKey := "K" }
    rfl (by decide) (by decide) (by decide) (by decide) (by decide) (by decide)
    (by decide) (by decide) (by decide) (by decide) (by decide) (by decide)
  exact ⟨h1, h2⟩

/-- C7 counterexample: no clamping exists.  With page 0 and limit 10 the
skip offset (page - 1) * limit is negative and the query fails with the
store validation error instead of the page being floored to 1; with
limit 200 the query succeeds and echoes the unclamped limit 200. -/
theorem C7_pagination_counterexample :
    getDonationsByDateRange exDB 1 (some 0) (some 10) 0 10
      = .error (.store .invalidSkip) ∧
    getDonationsByDateRange exDB 1 (some 0) (some 10) 1 200
      = .ok { data := [],
              pagination := { page := 1, limit := 200, total := 0, pages := 0 } } := by
  refine ⟨by decide, by decide⟩

/-- C7 amended: no clamping is performed.  The supplied page and limit are
used as-is and echoed in the pagination block; skip is (page - 1) * limit,
so a page below 1 with a positive limit produces a negative skip that the
store rejects with a validation error, while for page at least 1 and a
non-negative limit the query succeeds and the returned page holds at most
limit records. -/
theorem C7_pagination_amended (db : DB) (u : Nat) (start stop page limit : Int) :
    (page < 1 → 0 < limit →
      getDonationsByDateRange db u (some start) (some stop) page limit
        = .error (.store .invalidSkip)) ∧
    (1 ≤ page → 0 ≤ limit →
      ∃ res, getDonationsByDateRange db u (some start) (some stop) page limit
          = .ok res ∧
        res.pagination.page = page ∧ res.pagination.limit = limit ∧
        res.data.length ≤ limit.toNat) := by
  constructor
  · intro hp hl
    have hneg : (page - 1) * limit < 0 :=
      mul_neg_of_neg_of_pos (by omega) hl
    unfold getDonationsByDateRange
    simp only [if_pos hneg]
  · intro hp hl
    have hnn : ¬ (page - 1) * limit < 0 := by
      have := mul_nonneg (by omega : (0:Int) ≤ page - 1) hl
      omega
    unfold getDonationsByDateRange
    simp only [if_neg hnn]
    refine ⟨_, rfl, rfl, rfl, ?_⟩
    rw [List.length_map]
    unfold pageSlice
    rw [if_neg (by omega : ¬ limit < 0)]
    exact List.length_take_le _ _

/-- C7 witness: page 0 is rejected by the store rather than floored, and a
legal page 1 fetch echoes its limit and stays within it. -/
theorem C7_pagination_amended_witness :
    getDonationsByDateRange exDBonePrior 1 (some 0) (some 10) 0 5
      = .error (.store .invalidSkip) ∧
    ∃ res, getDonationsByDateRange exDBonePrior 1 (some 0) (some 10) 1 5 = .ok res ∧
      res.pagination.page = 1 ∧ res.pagination.limit = 5 ∧ res.data.length ≤ 5 := by
  refine ⟨(C7_pagination_amended exDBonePrior 1 0 10 0 5).1 (by decide) (by decide), ?_⟩
  obtain ⟨res, h1, h2, h3, h4⟩ :=
    (C7_pagination_amended exDBonePrior 1 0 10 1 5).2 (by decide) (by decide)
  exact ⟨res, h1, h2, h3, by simpa using h4⟩

/-- C6 counterexample: a request with a nonexistent receiver and an
invalid PIN fails with the invalid-PIN error, not with PartyNotFound: the
controller verifies the PIN before the service ever looks at the parties. -/
theorem C6_validation_order_counterexample :
    (createDonationEndpoint (fun _ _ => false) exDBnoReceiver 1 (some "k6")
        { receiverId := some 2, amount := some 100, pin := some "123456" }).1
      = { status := 403, message := "Invalid transaction PIN.", data := none } ∧
    (createDonationEndpoint (fun _ _ => false) exDBnoReceiver 1 (some "k6")
        { receiverId := some 2, amount := some 100, pin := some "123456" }).1.message
      ≠ "sender or receiver does not exist" := by
  refine ⟨by decide, by decide⟩

theorem createDonationEndpoint_pin_ok (vp : String → String → Bool) (db : DB)
    (u : Nat) (hdr : Option String) (body : DonateBody) (tp : TransactionPin)
    (h1 : truthyStr hdr = true)
    (h2 : (truthyNat body.receiverId && truthyRat body.amount && truthyStr body.pin) = true)
    (h3 : ¬ body.amount.getD 0 ≤ 0)
    (hpin : findPin db u = some tp)
    (hvp : vp (body.pin.getD "") tp.pinHash = true) :
    createDonationEndpoint vp db u hdr body
      = endpointRespond (createDonation db u (body.receiverId.getD 0)
          (body.amount.getD 0) (hdr.getD "")) := by
  unfold createDonationEndpoint
  simp [h1, h2, h3, hpin, hvp]

/-- C6 amended: the deployed validation order for a fresh-key request is
(1) idempotency key present and truthy, else InvalidRequest; (2) body
fields receiverId, amount and pin present and truthy, else InvalidRequest;
(3) amount positive, else InvalidRequest; (4) a PIN row configured, else
CredentialNotConfigured; (5) the PIN proof verifies, else
InvalidCredential; only then the service runs (6) the idempotency lookup,
(7) the amount check, (8) self-transfer, (9) party existence and (10) the
balance check.  PIN verification thus precedes the idempotency lookup and
the existence checks: a request with a nonexistent receiver and an invalid
PIN fails with InvalidCredential, not PartyNotFound. -/
theorem C6_validation_order_amended (vp : String → String → Bool) (db : DB)
    (u : Nat) (hdr : Option String) (body : DonateBody) :
    (truthyStr hdr = false →
      (createDonationEndpoint vp db u hdr body).1
        = { status := 400, message := "Idempotency-Key header is required",
            data := none }) ∧
    (truthyStr hdr = true →
      (truthyNat body.receiverId && truthyRat body.amount && truthyStr body.pin) = false →
      (createDonationEndpoint vp db u hdr body).1
        = { status := 400, message := "All fields are required.", data := none }) ∧
    (truthyStr hdr = true →
      (truthyNat body.receiverId && truthyRat body.amount && truthyStr body.pin) = true →
      body.amount.getD 0 ≤ 0 →
      (createDonationEndpoint vp db u hdr body).1
        = { status := 400, message := "Amount must be greater than zero.",
            data := none }) ∧
    (truthyStr hdr = true →
      (truthyNat body.receiverId && truthyRat body.amount && truthyStr body.pin) = true →
      ¬ body.amount.getD 0 ≤ 0 →
      findPin db u = none →
      (createDonationEndpoint vp db u hdr body).1
        = { status := 403, message := "Transaction PIN not set.", data := none }) ∧
    (∀ tp : TransactionPin, truthyStr hdr = true →
      (truthyNat body.receiverId && truthyRat body.amount && truthyStr body.pin) = true →
      ¬ body.amount.getD 0 ≤ 0 →
      findPin db u = some tp →
      vp (body.pin.getD "") tp.pinHash = false →
      (createDonationEndpoint vp db u hdr body).1
        = { status := 403, message := "Invalid transaction PIN.", data := none }) ∧
    (∀ tp : TransactionPin, truthyStr hdr = true →
      (truthyNat body.receiverId && truthyRat body.amount && truthyStr body.pin) = true →
      ¬ body.amount.getD 0 ≤ 0 →
      findPin db u = some tp →
      vp (body.pin.getD "") tp.pinHash = true →
      findIdemKey db (hdr.getD "") = none →
      u = body.receiverId.getD 0 →
      (createDonationEndpoint vp db u hdr body).1
        = { status := 400, message := "Cannot donate to yourself", data := none }) ∧
    (∀ tp : TransactionPin, truthyStr hdr = true →
      (truthyNat body.receiverId && truthyRat body.amount && truthyStr body.pin) = true →
      ¬ body.amount.getD 0 ≤ 0 →
      findPin db u = some tp →
      vp (body.pin.getD "") tp.pinHash = true →
      findIdemKey db (hdr.getD "") = none →
      u ≠ body.receiverId.getD 0 →
      (findUser db u = none ∨ findUser db (body.receiverId.getD 0) = none) →
      (createDonationEndpoint vp db u hdr body).1
        = { status := 400, message := "sender or receiver does not exist",
            data := none }) ∧
    (∀ (tp : TransactionPin) (sender : User) (w : Wallet), truthyStr hdr = true →
      (truthyNat body.receiverId && truthyRat body.amount && truthyStr body.pin) = true →
      ¬ body.amount.getD 0 ≤ 0 →
      findPin db u = some tp →
      vp (body.pin.getD "") tp.pinHash = true →
      findIdemKey db (hdr.getD "") = none →
      u ≠ body.receiverId.getD 0 →
      findUser db u = some sender →
      (findUser db (body.receiverId.getD 0)).isSome = true →
      findWallet db u = some w →
      w.balance < body.amount.getD 0 →
      (createDonationEndpoint vp db u hdr body).1
        = { status := 400, message := "Insufficient funds in wallet",
            data := none }) := by
  refine ⟨?_, ?_, ?_, ?_, ?_, ?_, ?_, ?_⟩
  · intro h
    simp [createDonationEndpoint, h]
  · intro h1 h2
    simp [createDonationEndpoint, h1, h2]
  · intro h1 h2 h3
    simp [createDonationEndpoint, h1, h2, h3]
  · intro h1 h2 h3 hpin
    simp [createDonationEndpoint, h1, h2, h3, hpin]
  · intro tp h1 h2 h3 hpin hvp
    simp [createDonationEndpoint, h1, h2, h3, hpin, hvp]
  · intro tp h1 h2 h3 hpin hvp hk heq
    rw [createDonationEndpoint_pin_ok vp db u hdr body tp h1 h2 h3 hpin hvp]
    rw [← heq]
    rw [createDonation_self db u (body.amount.getD 0) (hdr.getD "") hk (not_le.mp h3)]
    rfl
  · intro tp h1 h2 h3 hpin hvp hk hur hmiss
    rw [createDonationEndpoint_pin_ok vp db u hdr body tp h1 h2 h3 hpin hvp]
    rw [createDonation_partyMissing db u (body.receiverId.getD 0)
      (body.amount.getD 0) (hdr.getD "") hk (not_le.mp h3) hur hmiss]
    rfl
  · intro tp sender w h1 h2 h3 hpin hvp hk hur hs hr hw hlt
    rw [createDonationEndpoint_pin_ok vp db u hdr body tp h1 h2 h3 hpin hvp]
    rw [createDonation_insufficient db u (body.receiverId.getD 0)
      (body.amount.getD 0) (hdr.getD "") sender w hk (not_le.mp h3) hur hs hr hw hlt]
    rfl

/-- C6 witness: the amended order at a concrete store with no receiver and
a failing credential oracle: the response is the invalid-PIN 403. -/
theorem C6_validation_order_witness :
    (createDonationEndpoint (fun _ _ => false) exDBnoReceiver 1 (some "kw")
        { receiverId := some 2, amount := some 100, pin := some "123456" }).1
      = { status := 403, message := "Invalid transaction PIN.", data := none } := by
  have h := (C6_validation_order_amended (fun _ _ => false) exDBnoReceiver 1 (some "kw")
    { receiverId := some 2, amount := some 100, pin := some "123456" }).2.2.2.2.1
  exact h { userId := 1, pinHash := "H1" } (by decide) (by decide) (by decide)
    (by decide) (by decide)

end Fastamoni
